import Mathlib

/-
  Verification of the escalating-reminder engine of Mail → Calendar V3.01
  (src/Code.js) against its specification.

  Modelling conventions for the shallow embedding:
  * Instants are milliseconds since the Unix epoch, as `Int` (JS `Date.getTime()`).
    The script timezone is modelled as a fixed-offset clock (no DST), folded
    into the epoch, so local field extraction (`getHours`, calendar fields) is
    floor arithmetic on the millisecond value — exactly what the JS `Date`
    internals compute for a fixed offset.
  * `Int` `/` and `%` in Lean are euclidean (floor for positive divisors),
    matching the floor divisions inside the JS `Date` field getters.
    `Math.ceil(ms/stepMs)*stepMs` over exact integer ratios equals
    `((ms + stepMs - 1) / stepMs) * stepMs`, and `Math.round(a/b)` for `b > 0`
    equals `(2*a + b) / (2*b)` (`floor(x + 1/2)`).
  * The `while` loop of `buildHourlySignals_` is embedded with an explicit
    iteration budget (`fuel`) that is exact for the configured one-hour step,
    so the function is structurally recursive and computable.
  * The external surfaces are explicit state: the calendar is a list of events
    (`CalendarApp.getEvents(from,to)` returns the events overlapping the
    half-open range), `ScriptProperties` is an association list from keys to
    stored values, and project triggers are a list of handler names. A stored
    chain-state value is either `valid` (well-formed JSON of a record) or
    `malformed` (a string `JSON.parse` rejects).
  * `mail.meta` is an open bag of which only `gmailMessageLink` is ever read
    (by the description builder); it is modelled as the single string field
    `messageLink`.  Logging (`slog*`, `sheetLog_`) has no effect on the
    calendar, the properties or the triggers and is dropped.
-/

namespace MailCal

/-! ### CONFIG (src/Code.js lines 28-82, the fields the escalation engine reads) -/

namespace CONFIG

def ACTIVE_WINDOW_HOURS : Int := 24

def EVENT1_START_PLUS_MINUTES : Int := 10

def EVENT1_REMINDERS_MINUTES : List Int := [8, 6, 4, 2, 0]

def HOURLY_INTERVAL_HOURS : Int := 1

def HOURLY_BLOCK_MAX_SIGNALS : Nat := 5

def FINAL_REMINDERS_MINUTES : List Int := [40, 30, 20, 10, 0]

def QUIET_HOUR_START : Int := 23

def QUIET_HOUR_END : Int := 7

end CONFIG

/-! ### Date helpers (src/Code.js lines 707-723, 1242-1250) -/

/-- Source `addMinutes_(dt, minutes)`: shift an instant by whole minutes. -/
def addMinutes_ (dt minutes : Int) : Int := dt + minutes * 60000

/-- Source `addHours_(dt, hours)`. -/
def addHours_ (dt hours : Int) : Int := addMinutes_ dt (hours * 60)

/-- Source `ceilToMinutes_(dt, stepMinutes)`: round up to a multiple of `stepMinutes`. -/
def ceilToMinutes_ (dt stepMinutes : Int) : Int :=
  let stepMs := stepMinutes * 60000
  ((dt + stepMs - 1) / stepMs) * stepMs

/-- Source `ceilToHour_(dt)`. -/
def ceilToHour_ (dt : Int) : Int := ceilToMinutes_ dt 60

/-- Source `dt.getHours()`: local hour of day of an instant. -/
def getHours (dt : Int) : Int := (dt / 3600000) % 24

/-- Source `isInQuietHours_(dt)`: `h >= QUIET_HOUR_START || h < QUIET_HOUR_END`. -/
def isInQuietHours_ (dt : Int) : Bool :=
  decide (CONFIG.QUIET_HOUR_START ≤ getHours dt) || decide (getHours dt < CONFIG.QUIET_HOUR_END)

/-! ### Signal Planner (src/Code.js lines 1079-1097) -/

/-- Body of the `while (t <= endSignal)` loop of `buildHourlySignals_`: keep the
non-quiet instants, stepping by `HOURLY_INTERVAL_HOURS`. `fuel` bounds the
iteration count; `buildHourlySignals_` passes a budget that is exact for the
loop, so no iteration is truncated. -/
def signalsLoop : Nat → Int → Int → List Int
  | 0, _, _ => []
  | fuel + 1, t, endSignal =>
    if t ≤ endSignal then
      (if isInQuietHours_ t then [] else [t])
        ++ signalsLoop fuel (addHours_ t CONFIG.HOURLY_INTERVAL_HOURS) endSignal
    else []

/-- Source `buildHourlySignals_(longStart, expiresAt)`: hourly instants outside quiet
hours from `ceil(longStart + 1h)` up to `endSignal = expiresAt − 1h`, then the
guaranteed `endSignal` appended when it is not quiet and not already last. -/
def buildHourlySignals_ (longStart expiresAt : Int) : List Int :=
  let endSignal := addHours_ expiresAt (-1)
  let firstRaw := addHours_ longStart 1
  let t0 := ceilToHour_ firstRaw
  -- exact budget for the loop: one iteration per stepped instant `≤ endSignal`
  let fuel := (endSignal - t0).toNat / (CONFIG.HOURLY_INTERVAL_HOURS * 3600000).toNat + 1
  let signals := signalsLoop fuel t0 endSignal
  if isInQuietHours_ endSignal then signals
  else if signals.getLast? = some endSignal then signals
  else signals ++ [endSignal]

/-! ### Block Packer (src/Code.js lines 1099-1119) -/

/-- A block: `{ start: ISO instant, reminders: lead minutes }`. The ISO string
round-trips through `new Date(...)`, so `start` is modelled as the instant. -/
structure Block where
  start : Int
  reminders : List Int
deriving DecidableEq, Repr

/-- Source `Math.round(a / b)` for `b > 0`: `floor(a/b + 1/2)`. -/
def jsRoundDiv (a b : Int) : Int := (2 * a + b) / (2 * b)

/-- One slice of `buildHourlyBlocks_`: `start` is the last signal of the slice,
`reminders[j] = Math.round((start − slice[j]) / 60000)`. -/
def blockOfSlice (slice : List Int) : Block :=
  let start := slice.getLastD 0
  { start := start, reminders := slice.map fun s => jsRoundDiv (start - s) 60000 }

/-- The `for (i = 0; i < signals.length; i += step)` loop of
`buildHourlyBlocks_`. Each iteration consumes at least one signal, so a budget
of `signals.length` is exact. -/
def buildHourlyBlocksLoop : Nat → List Int → List Block
  | 0, _ => []
  | _, [] => []
  | fuel + 1, s :: rest =>
    blockOfSlice ((s :: rest).take CONFIG.HOURLY_BLOCK_MAX_SIGNALS)
      :: buildHourlyBlocksLoop fuel ((s :: rest).drop CONFIG.HOURLY_BLOCK_MAX_SIGNALS)

/-- Source `buildHourlyBlocks_(signals)`. -/
def buildHourlyBlocks_ (signals : List Int) : List Block :=
  buildHourlyBlocksLoop signals.length signals

/-- The signals a block list stands for: for each block in order, the instants
`start − leadMinutes[j]` in entry order (the round-trip observable stated by the spec). -/
def impliedSignals (blocks : List Block) : List Int :=
  blocks.flatMap fun b => b.reminders.map fun m => addMinutes_ b.start (-m)

/-! ### Civil-calendar field extraction and formatting
(src/Code.js lines 728-744, 1257-1291; JS `Date` getters for a fixed-offset
clock). `civilFromDays` is the standard floor-division conversion from a day
number (days since 1970-01-01) to year/month/day of the proleptic Gregorian
calendar. -/

def civilFromDays (z0 : Int) : Int × Int × Int :=
  let z := z0 + 719468
  let era := z / 146097
  let doe := z - era * 146097
  let yoe := (doe - doe / 1460 + doe / 36524 - doe / 146096) / 365
  let y := yoe + era * 400
  let doy := doe - (365 * yoe + yoe / 4 - yoe / 100)
  let mp := (5 * doy + 2) / 153
  let d := doy - (153 * mp + 2) / 5 + 1
  let m := mp + (if mp < 10 then 3 else -9)
  (if m ≤ 2 then y + 1 else y, m, d)

/-- The `(getFullYear, getMonth+1, getDate, getHours, getMinutes)` of an
instant. -/
def dateParts (t : Int) : Int × Int × Int × Int × Int :=
  let parts := civilFromDays (t / 86400000)
  (parts.1, parts.2.1, parts.2.2, (t / 3600000) % 24, (t / 60000) % 60)

/-- Pads a calendar field to two digits with a leading zero (`padStart`). -/
def pad2 (n : Int) : String :=
  if n < 10 then ("0") ++ toString n else toString n

/-- Source `formatYYYYMMDDHHMM_(dt)` (src/Code.js lines 1284-1291). -/
def formatYYYYMMDDHHMM_ (t : Int) : String :=
  let p := dateParts t
  toString p.1 ++ pad2 p.2.1 ++ pad2 p.2.2.1 ++ pad2 p.2.2.2.1 ++ pad2 p.2.2.2.2

/-- Source `formatDateTime_(dt)`, pattern dd.MM.yyyy HH:mm (src/Code.js lines 1257-1260). -/
def formatDateTime_ (t : Int) : String :=
  let p := dateParts t
  pad2 p.2.2.1 ++ "." ++ pad2 p.2.1 ++ "." ++ toString p.1
    ++ " " ++ pad2 p.2.2.2.1 ++ ":" ++ pad2 p.2.2.2.2

/-- Source `formatDuration_(fromDt, toDt)` (src/Code.js lines 1262-1270). -/
def formatDuration_ (fromDt toDt : Int) : String :=
  let ms := max 0 (toDt - fromDt)
  let totalMin := jsRoundDiv ms 60000
  let hh := totalMin / 60
  let mm := totalMin % 60
  if hh ≤ 0 then toString mm ++ " мин"
  else if mm = 0 then toString hh ++ " ч"
  else toString hh ++ " ч " ++ toString mm ++ " мин"

/-! ### String helpers (src/Code.js lines 728-744, 1252-1255) -/

/-- JS `x || dflt` for strings: the empty string is falsy. -/
def jsOr (s dflt : String) : String := if s = "" then dflt else s

/-- Source `truncate_(s, n)` (src/Code.js lines 1252-1255). -/
def truncate_ (s : String) (n : Nat) : String :=
  if s = "" then ("")
  else if s.length ≤ n then s
  else s.take (n - 1) ++ "…"

/-- Source `s.slice(-n)`: the last `n` characters (all of `s` when shorter). -/
def sliceLast (s : String) (n : Nat) : String :=
  ⟨s.data.drop (s.data.length - n)⟩

/-- Substring search on character lists (JS `hay.indexOf(needle) !== -1`). -/
def listHasInfix (needle : List Char) : List Char → Bool
  | [] => needle.isPrefixOf []
  | c :: rest => needle.isPrefixOf (c :: rest) || listHasInfix needle rest

/-- Source `hay.indexOf(needle) !== -1`. -/
def strContains (hay needle : String) : Bool := listHasInfix needle.data hay.data

/-- Source `s.indexOf(p) === 0`. -/
def strStartsWith (s p : String) : Bool := p.data.isPrefixOf s.data

/-- Joins lines with the newline separator (`lines.join`). -/
def linesJoin : List String → String
  | [] => ""
  | [l] => l
  | l :: ls => l ++ "\n" ++ linesJoin ls

/-- Source `buildBaseId_(mode, threadId, receivedAt, now)` (src/Code.js lines
728-744): `mode|YYYYMMDDHHMM|T<last 8 of threadId>`, keyed on `now` in TEST
mode and on `receivedAt` in LIVE mode. The source formats the minute key
inline with the same code as `formatYYYYMMDDHHMM_`. -/
def buildBaseId_ (mode threadId : String) (receivedAt now : Int) : String :=
  let tid8 := sliceLast (jsOr threadId ("NO_THREAD")) 8
  let keyDate := if mode = "TEST" then now else receivedAt
  mode ++ "|" ++ formatYYYYMMDDHHMM_ keyDate ++ "|T" ++ tid8

/-! ### Event titles and descriptions (src/Code.js lines 749-788, 1272-1282) -/

/-- Source `buildEventTitle_(kind, subject, receivedAt, expiresAt, isTest)`. -/
def buildEventTitle_ (kind subject : String) (receivedAt expiresAt : Int) (isTest : Bool) :
    String :=
  let subj := jsOr subject ("(без темы)")
  let base := "Важное письмо! - " ++ subj ++ ". "
  let base :=
    if kind = "LONG" then base ++ "Получено " ++ formatDateTime_ receivedAt
    else base ++ "Событие до " ++ formatDateTime_ expiresAt
  if isTest then base ++ " (тест)" else base

/-- Source `buildDescriptionNew_(p)` (src/Code.js lines 749-788). The parameters the
body actually reads: `p.id`, `p.kind`, `p.subject`, `p.receivedAt`,
`p.expiresAt`, `p.eventStart`, `p.gmailLink`, `p.meta.gmailMessageLink`
(`p.mode`, `p.expectedSender`, `p.inbox`, `p.threadId` are passed by callers
but never used). The marker line `MAILALERT_ID: <id>` is pushed last. -/
def buildDescriptionNew_ (alertId kind subject gmailLink messageLink : String)
    (receivedAt expiresAt eventStart : Option Int) : String :=
  let kindLines :=
    if kind = "LONG" then
      ["Событие активно:"]
        ++ (match eventStart with | some es => ["с " ++ formatDateTime_ es] | none => [])
        ++ (match expiresAt with | some ex => ["по " ++ formatDateTime_ ex] | none => [])
    else if kind = "HOURLY" then
      ["Почасовые напоминания."]
        ++ (match expiresAt, eventStart with
            | some ex, some es => ["Осталось до дедлайна: " ++ formatDuration_ es ex]
            | _, _ => [])
    else if kind = "FINAL" then
      ["Финальные уведомления."]
        ++ (match expiresAt, eventStart with
            | some ex, some es => ["Осталось до дедлайна: " ++ formatDuration_ es ex]
            | _, _ => [])
    else []
  let recvLines :=
    match receivedAt with
    | some r => ["Письмо получено: " ++ formatDateTime_ r]
    | none => []
  let subjLines := ["Тема: " ++ jsOr subject ("(без темы)")]
  let linkLines :=
    (if gmailLink = "" then [] else ["Письмо (тред): " ++ gmailLink])
      ++ (if messageLink = "" then [] else ["Письмо (сообщение): " ++ messageLink])
  linesJoin (kindLines ++ recvLines ++ subjLines ++ linkLines ++ ["MAILALERT_ID: " ++ alertId])

/-! ### The external surfaces: calendar, script properties, triggers -/

/-- One calendar event. `key` is an internal surrogate identity (the object
identity `deleteEvent` acts on); `desc` is the description searched for
markers; `reminders` are the popup reminders attached after creation. -/
structure CalEvent where
  key : Nat
  title : String
  start : Int
  endTime : Int
  desc : String
  reminders : List Int
  allDay : Bool
deriving DecidableEq, Repr

/-- The durable record of one escalation chain (the JSON persisted under
`MAILALERT_HCHAIN:<chainId>`, src/Code.js lines 980-996). `meta` is modelled
by its only read field, `messageLink`. -/
structure ChainState where
  chainId : String
  baseId : String
  mode : String
  subject : String
  threadId : String
  gmailLink : String
  messageLink : String
  receivedAt : Int
  longStart : Int
  expiresAt : Int
  blocks : List Block
  indexCurrent : Nat
  currentEventId : String
  pendingDeleteEventId : String
  status : String
deriving DecidableEq, Repr

/-- A raw value in ScriptProperties: either the JSON of a chain record or a
string `JSON.parse` rejects. -/
inductive StoredVal where
  | valid (st : ChainState)
  | malformed (raw : String)
deriving DecidableEq, Repr

/-- Embeds `JSON.parse` under the try/catch of the source, which returns null on a parse failure. -/
def parseStored : StoredVal → Option ChainState
  | .valid st => some st
  | .malformed _ => none

/-- The external world: default calendar, ScriptProperties, project triggers. -/
structure World where
  cal : List CalEvent
  nextKey : Nat
  props : List (String × StoredVal)
  triggers : List String
deriving DecidableEq, Repr

/-- Source `CalendarApp.getEvents(from, to)` keeps the events overlapping the
half-open range `[frm, upTo)`. -/
def evOverlaps (ev : CalEvent) (frm upTo : Int) : Bool :=
  decide (ev.start < upTo) && decide (frm < ev.endTime)

/-- Source `findEventById_(cal, from, to, alertId, opts)` (src/Code.js lines
678-695): the first event in the window, not all-day when `allowAllDay` is
false, whose description contains `"MAILALERT_ID: " + alertId`. -/
def findEventById_ (cal : List CalEvent) (frm upTo : Int) (alertId : String)
    (allowAllDay : Bool) : Option CalEvent :=
  cal.find? fun ev =>
    evOverlaps ev frm upTo && (allowAllDay || !ev.allDay)
      && strContains ev.desc ("MAILALERT_ID: " ++ alertId)

/-- Embeds `cal.createEvent` with a description option, followed by
`removeAllReminders()` and one `addPopupReminder` per entry. -/
def calCreateEvent (w : World) (title : String) (start endT : Int) (desc : String)
    (reminders : List Int) : CalEvent × World :=
  let ev : CalEvent :=
    { key := w.nextKey, title := title, start := start, endTime := endT,
      desc := desc, reminders := reminders, allDay := false }
  (ev, { w with cal := w.cal ++ [ev], nextKey := w.nextKey + 1 })

/-- Source `ev.deleteEvent()`. -/
def calDeleteEvent (w : World) (ev : CalEvent) : World :=
  { w with cal := w.cal.filter fun e => e.key != ev.key }

/-- Source `getProperty`. -/
def propGet : List (String × StoredVal) → String → Option StoredVal
  | [], _ => none
  | p :: rest, k => if p.1 == k then some p.2 else propGet rest k

/-- Source `setProperty` (replace the value at the key, or append). -/
def propSet : List (String × StoredVal) → String → StoredVal → List (String × StoredVal)
  | [], k, v => [(k, v)]
  | p :: rest, k, v => if p.1 == k then (k, v) :: rest else p :: propSet rest k v

/-- Source `deleteProperty`. -/
def propDelete : List (String × StoredVal) → String → List (String × StoredVal)
  | [], _ => []
  | p :: rest, k => if p.1 == k then rest else p :: propDelete rest k

/-! ### Chain-state persistence (src/Code.js lines 1215-1237) -/

/-- The ScriptProperties key of a chain. -/
def chainKey (chainId : String) : String := "MAILALERT_HCHAIN:" ++ chainId

/-- Source `saveHourlyChainState_(state)`. -/
def saveHourlyChainState_ (st : ChainState) (w : World) : World :=
  { w with props := propSet w.props (chainKey st.chainId) (.valid st) }

/-- Source `getHourlyChainState_(chainId)`: `null` when absent or unparseable. -/
def getHourlyChainState_ (chainId : String) (w : World) : Option ChainState :=
  (propGet w.props (chainKey chainId)).bind parseStored

/-- Source `deleteHourlyChainState_(chainId)`. -/
def deleteHourlyChainState_ (chainId : String) (w : World) : World :=
  { w with props := propDelete w.props (chainKey chainId) }

/-- Source `listHourlyChainStates_()`: parse every `MAILALERT_HCHAIN:`-prefixed
record, silently skipping the unparseable ones. -/
def listHourlyChainStates_ (w : World) : List ChainState :=
  w.props.filterMap fun p =>
    if strStartsWith p.1 ("MAILALERT_HCHAIN:") then parseStored p.2 else none

/-! ### Trigger lifecycle (src/Code.js lines 1187-1213) -/

/-- Source `ensureHourlyChainTrigger_()`. -/
def ensureHourlyChainTrigger_ (w : World) : World :=
  if w.triggers.contains ("processHourlyChains_") then w
  else { w with triggers := w.triggers ++ ["processHourlyChains_"] }

/-- Source `cleanupHourlyChainTrigger_()`: drop the driver trigger once no chain
records remain. -/
def cleanupHourlyChainTrigger_ (w : World) : World :=
  if listHourlyChainStates_ w ≠ [] then w
  else { w with triggers := w.triggers.filter fun t => t != "processHourlyChains_" }

/-! ### Event materialization (src/Code.js lines 1121-1185) -/

/-- The fields of `mailOrState` that `createHourlyBlockEvent_` reads (it is
called both with a mail-derived context and with a full chain record). -/
structure ChainCtx where
  mode : String
  subject : String
  threadId : String
  gmailLink : String
  messageLink : String
  receivedAt : Int
  expiresAt : Int
deriving DecidableEq, Repr

/-- The context view of a chain record. -/
def ChainState.ctx (st : ChainState) : ChainCtx :=
  { mode := st.mode, subject := st.subject, threadId := st.threadId,
    gmailLink := st.gmailLink, messageLink := st.messageLink,
    receivedAt := st.receivedAt, expiresAt := st.expiresAt }

/-- Source `createHourlyBlockEvent_(mailOrState, chainId, index, block)` (src/Code.js
lines 1121-1154): build the marker id `chainId|B<index>|<YYYYMMDDHHMM of
start>`, create a 5-minute event at `block.start` carrying the marker in its
description and one reminder per `block.reminders` entry, and return the
marker id.  (The source creates unconditionally: there is no search for an
already existing marker event here.) -/
def createHourlyBlockEvent_ (ctx : ChainCtx) (chainId : String) (index : Nat)
    (block : Block) (w : World) : String × World :=
  let start := block.start
  let endT := addMinutes_ start 5
  let eventId := chainId ++ "|B" ++ toString index ++ "|" ++ formatYYYYMMDDHHMM_ start
  let mode := jsOr ctx.mode ("LIVE")
  let title := buildEventTitle_ ("HOURLY") (truncate_ (jsOr ctx.subject ("(без темы)")) 120)
    ctx.receivedAt ctx.expiresAt (mode = "TEST")
  let desc := buildDescriptionNew_ eventId ("HOURLY") ctx.subject ctx.gmailLink
    ctx.messageLink (some ctx.receivedAt) (some ctx.expiresAt) (some start)
  let created := calCreateEvent w title start endT desc block.reminders
  (eventId, created.2)

/-- Source `createFinalEvent_(state)` (src/Code.js lines 1156-1185): a 5-minute event
at the deadline with the `FINAL` reminders; returns the marker id
`chainId|FINAL|<YYYYMMDDHHMM>`. -/
def createFinalEvent_ (st : ChainState) (w : World) : String × World :=
  let endAt := st.expiresAt
  let start := endAt
  let endT := addMinutes_ start 5
  let eventId := st.chainId ++ "|FINAL|" ++ formatYYYYMMDDHHMM_ start
  let title := "❗❗❗ " ++ buildEventTitle_ ("FINAL")
    (truncate_ (jsOr st.subject ("(без темы)")) 120) st.receivedAt endAt (st.mode = "TEST")
  let desc := buildDescriptionNew_ eventId ("FINAL") st.subject (jsOr st.gmailLink (""))
    st.messageLink (some st.receivedAt) (some endAt) (some start)
  let created := calCreateEvent w title start endT desc CONFIG.FINAL_REMINDERS_MINUTES
  (eventId, created.2)

/-! ### Chain Driver (src/Code.js lines 1008-1077) -/

/-- The body of the `for` loop of `processHourlyChains_` for one snapshot
record `st0` (src/Code.js lines 1017-1073). The source indexes
`st.blocks[st.indexCurrent]` without a bounds check (out of range would throw
in JS); the model totalizes that read with a dummy block, and every claim is
about in-range states. -/
def processOneChain (now : Int) (w : World) (st0 : ChainState) : World :=
  let step1 :=
    if st0.pendingDeleteEventId ≠ "" then
      let w1 :=
        match findEventById_ w.cal (addHours_ now (-48)) (addHours_ now 48)
            st0.pendingDeleteEventId false with
        | some pending => calDeleteEvent w pending
        | none => w
      ({ st0 with pendingDeleteEventId := "" }, w1)
    else (st0, w)
  let st := step1.1
  let w := step1.2
  if st.status = "final_cleanup" then deleteHourlyChainState_ st.chainId w
  else if st.currentEventId = "" then deleteHourlyChainState_ st.chainId w
  else
    match findEventById_ w.cal (addHours_ now (-48)) (addHours_ now 48)
        st.currentEventId false with
    | none => deleteHourlyChainState_ st.chainId w
    | some _ =>
      let currentBlock := st.blocks.getD st.indexCurrent { start := 0, reminders := [] }
      if now < currentBlock.start then saveHourlyChainState_ st w
      else if st.indexCurrent < st.blocks.length - 1 then
        let nextIndex := st.indexCurrent + 1
        let nextBlock := st.blocks.getD nextIndex { start := 0, reminders := [] }
        let created := createHourlyBlockEvent_ st.ctx st.chainId nextIndex nextBlock w
        saveHourlyChainState_
          { st with pendingDeleteEventId := st.currentEventId,
                    currentEventId := created.1, indexCurrent := nextIndex }
          created.2
      else
        let created := createFinalEvent_ st w
        if created.1 ≠ "" then
          saveHourlyChainState_
            { st with pendingDeleteEventId := st.currentEventId,
                      currentEventId := "", status := "final_cleanup" }
            created.2
        else deleteHourlyChainState_ st.chainId created.2

/-- Source `processHourlyChains_()` at instant `now`: iterate over a snapshot of the
persisted chain records, then self-disarm the trigger if none remain. -/
def processHourlyChains_ (now : Int) (w : World) : World :=
  let chains := listHourlyChainStates_ w
  if chains.isEmpty then cleanupHourlyChainTrigger_ w
  else cleanupHourlyChainTrigger_ (chains.foldl (processOneChain now) w)

/-! ### Chain start and mail entry point (src/Code.js lines 539-622, 948-1006) -/

/-- The mail payload handed to the engine. -/
structure Mail where
  mode : String
  receivedAt : Int
  subject : String
  threadId : String
  gmailLink : String
  messageLink : String
deriving DecidableEq, Repr

/-- Source `startHourlyChainForMail_(mail, baseId, longStart, expiresAt)` (src/Code.js
lines 948-1006): no-op when the chain record already exists or no signals and
blocks come out; otherwise materialize block 0, persist the record, arm the
trigger. -/
def startHourlyChainForMail_ (mail : Mail) (baseId : String) (longStart expiresAt : Int)
    (w : World) : World :=
  let chainId := baseId ++ "|HCHAIN"
  if (getHourlyChainState_ chainId w).isSome then w
  else
    let signals := buildHourlySignals_ longStart expiresAt
    if signals.isEmpty then w
    else
      let blocks := buildHourlyBlocks_ signals
      match blocks with
      | [] => w
      | first :: _ =>
        let ctx : ChainCtx :=
          { mode := jsOr mail.mode ("LIVE"), subject := mail.subject,
            threadId := mail.threadId, gmailLink := mail.gmailLink,
            messageLink := mail.messageLink, receivedAt := mail.receivedAt,
            expiresAt := expiresAt }
        let created := createHourlyBlockEvent_ ctx chainId 0 first w
        let st : ChainState :=
          { chainId := chainId, baseId := baseId, mode := jsOr mail.mode ("LIVE"),
            subject := mail.subject, threadId := mail.threadId,
            gmailLink := mail.gmailLink, messageLink := mail.messageLink,
            receivedAt := mail.receivedAt, longStart := longStart,
            expiresAt := expiresAt, blocks := blocks, indexCurrent := 0,
            currentEventId := created.1, pendingDeleteEventId := "",
            status := "active" }
        ensureHourlyChainTrigger_ (saveHourlyChainState_ st created.2)

/-- Source `receivedAt + ACTIVE_WINDOW_HOURS` hours. -/
def mailExpiresAt (mail : Mail) : Int :=
  mail.receivedAt + CONFIG.ACTIVE_WINDOW_HOURS * 60 * 60 * 1000

/-- Source `now + EVENT1_START_PLUS_MINUTES` minutes. -/
def mailLongStart (now : Int) : Int := addMinutes_ now CONFIG.EVENT1_START_PLUS_MINUTES

/-- The mail mode defaulted to LIVE when empty. -/
def mailMode (mail : Mail) : String := jsOr mail.mode ("LIVE")

/-- The anti-duplicate base id of a mail (src/Code.js line 555). -/
def mailBaseId (mail : Mail) (now : Int) : String :=
  buildBaseId_ (mailMode mail) mail.threadId mail.receivedAt now

/-- The marker id of the LONG event. -/
def mailLongId (mail : Mail) (now : Int) : String := mailBaseId mail now ++ "|LONG"

/-- Source `createTwoEventsForMail_(runId, mail)` at clock `now` (src/Code.js lines
539-622): create the LONG event unless an event carrying its marker is already
found in `[longStart − 60min, expiresAt + 60min]`, then start the hourly
chain. -/
def createTwoEventsForMail_ (mail : Mail) (now : Int) (w : World) : World :=
  let mode := mailMode mail
  let expiresAt := mailExpiresAt mail
  let longStart := mailLongStart now
  let baseId := mailBaseId mail now
  let subjectShort := truncate_ (jsOr mail.subject ("(без темы)")) 120
  let isTest := mode = "TEST"
  let longId := baseId ++ "|LONG"
  let longTitle := buildEventTitle_ ("LONG") subjectShort mail.receivedAt expiresAt isTest
  let longDesc := buildDescriptionNew_ longId ("LONG") mail.subject mail.gmailLink
    mail.messageLink (some mail.receivedAt) (some expiresAt) (some longStart)
  let w1 :=
    match findEventById_ w.cal (addMinutes_ longStart (-60)) (addMinutes_ expiresAt 60)
        longId false with
    | some _ => w
    | none => (calCreateEvent w longTitle longStart expiresAt longDesc
        CONFIG.EVENT1_REMINDERS_MINUTES).2
  startHourlyChainForMail_ mail baseId longStart expiresAt w1

/-! ### Concrete scenario instances used by the claim theorems -/

def c1Ctx : ChainCtx :=
  { mode := "LIVE", subject := "subj", threadId := "T1", gmailLink := "",
    messageLink := "", receivedAt := 0, expiresAt := 86400000 }

def c1ChainId : String := "LIVE|197001010000|TT1|HCHAIN"

def c1Block : Block := { start := 36000000, reminders := [60, 0] }

def c1BlockId : String := c1ChainId ++ "|B0|" ++ formatYYYYMMDDHHMM_ 36000000

/-- A calendar already holding an event that carries the marker of the block. -/
def c1World : World :=
  { cal := [{ key := 0, title := "pre", start := 36000000, endTime := 36300000,
              desc := "MAILALERT_ID: " ++ c1BlockId, reminders := [0], allDay := false }],
    nextKey := 1, props := [], triggers := [] }

def c7Mail : Mail :=
  { mode := "LIVE", receivedAt := 0, subject := "s", threadId := "T123",
    gmailLink := "", messageLink := "" }

def c7Dummy : ChainState :=
  { chainId := "x", baseId := "b", mode := "LIVE", subject := "", threadId := "",
    gmailLink := "", messageLink := "", receivedAt := 0, longStart := 0,
    expiresAt := 0, blocks := [], indexCurrent := 0, currentEventId := "",
    pendingDeleteEventId := "", status := "active" }

/-- A world where the LONG event and the chain record of `c7Mail` already
exist. -/
def c7World : World :=
  { cal := [{ key := 0, title := "long", start := 600000, endTime := 86400000,
              desc := "MAILALERT_ID: " ++ mailLongId c7Mail 0, reminders := [0],
              allDay := false }],
    nextKey := 1,
    props := [(chainKey (mailBaseId c7Mail 0 ++ "|HCHAIN"), StoredVal.valid c7Dummy)],
    triggers := [] }

def c8St : ChainState :=
  { chainId := "C8", baseId := "B", mode := "LIVE", subject := "", threadId := "",
    gmailLink := "", messageLink := "", receivedAt := 0, longStart := 0,
    expiresAt := 180000000, blocks := [{ start := 176400000, reminders := [0] }],
    indexCurrent := 0, currentEventId := "EVT8", pendingDeleteEventId := "",
    status := "active" }

/-- A world whose single chain has its current block-event in the calendar,
but starting 49 hours after `now = 0`, outside the ±48h search
window. -/
def c8World : World :=
  { cal := [{ key := 0, title := "t", start := 176400000, endTime := 176700000,
              desc := "MAILALERT_ID: EVT8", reminders := [0], allDay := false }],
    nextKey := 1, props := [(chainKey ("C8"), StoredVal.valid c8St)],
    triggers := ["processHourlyChains_"] }

def c8bSt : ChainState :=
  { chainId := "C8b", baseId := "B", mode := "LIVE", subject := "", threadId := "",
    gmailLink := "", messageLink := "", receivedAt := 0, longStart := 0,
    expiresAt := 180000000, blocks := [{ start := 3600000, reminders := [0] }],
    indexCurrent := 0, currentEventId := "EVT8b", pendingDeleteEventId := "",
    status := "active" }

def c8bCal : List CalEvent :=
  [{ key := 0, title := "t", start := 3600000, endTime := 3900000,
     desc := "MAILALERT_ID: EVT8b", reminders := [0], allDay := false }]

def c10St : ChainState :=
  { chainId := "C10", baseId := "B", mode := "LIVE", subject := "", threadId := "",
    gmailLink := "", messageLink := "", receivedAt := 0, longStart := 0,
    expiresAt := 180000000, blocks := [{ start := 176400000, reminders := [0] }],
    indexCurrent := 0, currentEventId := "EVT10", pendingDeleteEventId := "",
    status := "active" }

def c10Cal : List CalEvent :=
  [{ key := 0, title := "t", start := 176400000, endTime := 176700000,
     desc := "MAILALERT_ID: EVT10", reminders := [0], allDay := false }]

/-- A second dummy record for the C9 scenario. -/
def c9Dummy : ChainState :=
  { chainId := "y", baseId := "b", mode := "LIVE", subject := "", threadId := "",
    gmailLink := "", messageLink := "", receivedAt := 0, longStart := 0,
    expiresAt := 0, blocks := [], indexCurrent := 0, currentEventId := "",
    pendingDeleteEventId := "", status := "active" }

/-! ## Lemmas about the Signal Planner loop -/

lemma mem_signalsLoop : ∀ (fuel : Nat) (t e x : Int), x ∈ signalsLoop fuel t e →
    t ≤ x ∧ x ≤ e ∧ isInQuietHours_ x = false := by
  intro fuel
  induction fuel with
  | zero => intro t e x hx; simp [signalsLoop] at hx
  | succ n ih =>
    intro t e x hx
    simp only [signalsLoop] at hx
    by_cases hte : t ≤ e
    · rw [if_pos hte] at hx
      rcases List.mem_append.mp hx with h1 | h2
      · by_cases hq : isInQuietHours_ t = true
        · simp [hq] at h1
        · simp only [hq, if_neg, Bool.false_eq_true, if_false, List.mem_singleton] at h1
          subst h1
          exact ⟨le_refl _, hte, by simpa using hq⟩
      · have h := ih _ _ _ h2
        refine ⟨?_, h.2.1, h.2.2⟩
        have h1 := h.1
        simp only [addHours_, addMinutes_, CONFIG.HOURLY_INTERVAL_HOURS] at h1
        omega
    · rw [if_neg hte] at hx; simp at hx

lemma dvd_signalsLoop : ∀ (fuel : Nat) (t e : Int), (60000:Int) ∣ t →
    ∀ x ∈ signalsLoop fuel t e, (60000:Int) ∣ x := by
  intro fuel
  induction fuel with
  | zero => intro t e _ x hx; simp [signalsLoop] at hx
  | succ n ih =>
    intro t e ht x hx
    simp only [signalsLoop] at hx
    by_cases hte : t ≤ e
    · rw [if_pos hte] at hx
      rcases List.mem_append.mp hx with h1 | h2
      · by_cases hq : isInQuietHours_ t = true
        · simp [hq] at h1
        · simp only [hq, Bool.false_eq_true, if_false, List.mem_singleton] at h1
          subst h1; exact ht
      · refine ih _ _ ?_ _ h2
        simp only [addHours_, addMinutes_, CONFIG.HOURLY_INTERVAL_HOURS]
        omega
    · rw [if_neg hte] at hx; simp at hx

lemma pairwise_signalsLoop : ∀ (fuel : Nat) (t e : Int),
    (signalsLoop fuel t e).Pairwise (· < ·) := by
  intro fuel
  induction fuel with
  | zero => intro t e; simp [signalsLoop]
  | succ n ih =>
    intro t e
    simp only [signalsLoop]
    by_cases hte : t ≤ e
    · rw [if_pos hte]
      by_cases hq : isInQuietHours_ t = true
      · simpa [hq] using ih (addHours_ t CONFIG.HOURLY_INTERVAL_HOURS) e
      · simp only [hq, Bool.false_eq_true, if_false, List.singleton_append,
          List.pairwise_cons]
        refine ⟨fun y hy => ?_, ih _ _⟩
        have h := (mem_signalsLoop _ _ _ _ hy).1
        simp only [addHours_, addMinutes_, CONFIG.HOURLY_INTERVAL_HOURS] at h
        omega
    · rw [if_neg hte]; simp

/-- In a strictly increasing list whose members are all `≤ e`, if `e` is a
member then it is the last element. -/
lemma getLast?_of_mem_max : ∀ (l : List Int) (e : Int), l.Pairwise (· < ·) →
    e ∈ l → (∀ x ∈ l, x ≤ e) → l.getLast? = some e := by
  intro l
  induction l with
  | nil => simp
  | cons a l ih =>
    intro e hp he hb
    cases l with
    | nil => simpa using (List.mem_singleton.mp he).symm
    | cons b l2 =>
      rw [List.getLast?_cons_cons]
      rcases List.mem_cons.mp he with rfl | he2
      · have hab : e < b := (List.pairwise_cons.mp hp).1 b (by simp)
        have hbe : b ≤ e := hb b (by simp)
        omega
      · exact ih e (List.pairwise_cons.mp hp).2 he2
          (fun x hx => hb x (List.mem_cons_of_mem _ hx))

lemma mem_buildHourlySignals (longStart expiresAt x : Int)
    (hx : x ∈ buildHourlySignals_ longStart expiresAt) :
    isInQuietHours_ x = false ∧ x ≤ addHours_ expiresAt (-1) := by
  simp only [buildHourlySignals_] at hx
  by_cases hq : isInQuietHours_ (addHours_ expiresAt (-1)) = true
  · rw [if_pos hq] at hx
    have h := mem_signalsLoop _ _ _ _ hx
    exact ⟨h.2.2, h.2.1⟩
  · rw [if_neg hq] at hx
    by_cases hl : (signalsLoop ((addHours_ expiresAt (-1) - ceilToHour_ (addHours_ longStart 1)).toNat /
        (CONFIG.HOURLY_INTERVAL_HOURS * 3600000).toNat + 1) (ceilToHour_ (addHours_ longStart 1))
        (addHours_ expiresAt (-1))).getLast? = some (addHours_ expiresAt (-1))
    · rw [if_pos hl] at hx
      have h := mem_signalsLoop _ _ _ _ hx
      exact ⟨h.2.2, h.2.1⟩
    · rw [if_neg hl] at hx
      rcases List.mem_append.mp hx with h1 | h2
      · have h := mem_signalsLoop _ _ _ _ h1
        exact ⟨h.2.2, h.2.1⟩
      · rw [List.mem_singleton.mp h2]
        exact ⟨by simpa using hq, le_refl _⟩

lemma dvd_buildHourlySignals (longStart expiresAt x : Int)
    (hex : (60000:Int) ∣ expiresAt)
    (hx : x ∈ buildHourlySignals_ longStart expiresAt) : (60000:Int) ∣ x := by
  have ht0 : (60000:Int) ∣ ceilToHour_ (addHours_ longStart 1) := by
    simp only [ceilToHour_, ceilToMinutes_]
    exact ⟨(addHours_ longStart 1 + 60 * 60000 - 1) / (60 * 60000) * 60, by ring⟩
  have hend : (60000:Int) ∣ addHours_ expiresAt (-1) := by
    simp only [addHours_, addMinutes_]; omega
  simp only [buildHourlySignals_] at hx
  by_cases hq : isInQuietHours_ (addHours_ expiresAt (-1)) = true
  · rw [if_pos hq] at hx
    exact dvd_signalsLoop _ _ _ ht0 _ hx
  · rw [if_neg hq] at hx
    by_cases hl : (signalsLoop ((addHours_ expiresAt (-1) - ceilToHour_ (addHours_ longStart 1)).toNat /
        (CONFIG.HOURLY_INTERVAL_HOURS * 3600000).toNat + 1) (ceilToHour_ (addHours_ longStart 1))
        (addHours_ expiresAt (-1))).getLast? = some (addHours_ expiresAt (-1))
    · rw [if_pos hl] at hx
      exact dvd_signalsLoop _ _ _ ht0 _ hx
    · rw [if_neg hl] at hx
      rcases List.mem_append.mp hx with h1 | h2
      · exact dvd_signalsLoop _ _ _ ht0 _ h1
      · rw [List.mem_singleton.mp h2]; exact hend

lemma pairwise_buildHourlySignals (longStart expiresAt : Int) :
    (buildHourlySignals_ longStart expiresAt).Pairwise (· < ·) := by
  simp only [buildHourlySignals_]
  by_cases hq : isInQuietHours_ (addHours_ expiresAt (-1)) = true
  · rw [if_pos hq]; exact pairwise_signalsLoop _ _ _
  · rw [if_neg hq]
    by_cases hl : (signalsLoop ((addHours_ expiresAt (-1) - ceilToHour_ (addHours_ longStart 1)).toNat /
        (CONFIG.HOURLY_INTERVAL_HOURS * 3600000).toNat + 1) (ceilToHour_ (addHours_ longStart 1))
        (addHours_ expiresAt (-1))).getLast? = some (addHours_ expiresAt (-1))
    · rw [if_pos hl]; exact pairwise_signalsLoop _ _ _
    · rw [if_neg hl]
      rw [List.pairwise_append]
      refine ⟨pairwise_signalsLoop _ _ _, by simp, fun x hx y hy => ?_⟩
      rw [List.mem_singleton.mp hy]
      have hb := (mem_signalsLoop _ _ _ _ hx).2.1
      rcases lt_or_eq_of_le hb with h | h
      · exact h
      · exfalso
        apply hl
        apply getLast?_of_mem_max _ _ (pairwise_signalsLoop _ _ _) (h ▸ hx)
        exact fun z hz => (mem_signalsLoop _ _ _ _ hz).2.1

lemma getLast?_buildHourlySignals (longStart expiresAt : Int)
    (hq : isInQuietHours_ (addHours_ expiresAt (-1)) = false) :
    (buildHourlySignals_ longStart expiresAt).getLast? = some (addHours_ expiresAt (-1)) := by
  simp only [buildHourlySignals_]
  rw [if_neg (by simp [hq])]
  by_cases hl : (signalsLoop ((addHours_ expiresAt (-1) - ceilToHour_ (addHours_ longStart 1)).toNat /
      (CONFIG.HOURLY_INTERVAL_HOURS * 3600000).toNat + 1) (ceilToHour_ (addHours_ longStart 1))
      (addHours_ expiresAt (-1))).getLast? = some (addHours_ expiresAt (-1))
  · rw [if_pos hl]; exact hl
  · rw [if_neg hl]; exact List.getLast?_concat _

/-! ## Claims about the Signal Planner (C2, C5, C6) -/

/-- C5: for every `windowStart` and `deadline`, the Signal Planner output is
strictly increasing (hence duplicate-free), every element is non-quiet, and
`isQuiet` is exactly the predicate: local hour at least quietStartHour, or below quietEndHour. -/
theorem C5_planner_sorted_nonquiet (longStart expiresAt : Int) :
    (buildHourlySignals_ longStart expiresAt).Pairwise (· < ·)
      ∧ (∀ t ∈ buildHourlySignals_ longStart expiresAt, isInQuietHours_ t = false)
      ∧ (∀ t : Int, isInQuietHours_ t =
          (decide (CONFIG.QUIET_HOUR_START ≤ getHours t)
            || decide (getHours t < CONFIG.QUIET_HOUR_END))) :=
  ⟨pairwise_buildHourlySignals longStart expiresAt,
   fun t ht => (mem_buildHourlySignals longStart expiresAt t ht).1,
   fun _ => rfl⟩

/-- Witness for C5 at the spec scenario: 11:00 (a kept signal) is non-quiet. -/
theorem C5_planner_sorted_nonquiet_witness : isInQuietHours_ 39600000 = false :=
  (C5_planner_sorted_nonquiet 36000000 118800000).2.1 39600000 (by decide)

/-- C6: whenever `deadline − 1h` is not quiet the planner output is non-empty
and ends exactly at `deadline − 1h`, however the hourly stepping aligns. -/
theorem C6_planner_guaranteed_last (longStart expiresAt : Int)
    (hq : isInQuietHours_ (addHours_ expiresAt (-1)) = false) :
    buildHourlySignals_ longStart expiresAt ≠ []
      ∧ (buildHourlySignals_ longStart expiresAt).getLast? = some (addHours_ expiresAt (-1)) := by
  have h := getLast?_buildHourlySignals longStart expiresAt hq
  exact ⟨List.ne_nil_of_mem (List.mem_of_mem_getLast? h), h⟩

/-- Witness for C6 at `windowStart = 10:00`, `deadline = 09:00 next day`
(so `endSignal = 08:00`, non-quiet). -/
theorem C6_planner_guaranteed_last_witness :
    isInQuietHours_ (addHours_ 118800000 (-1)) = false
      ∧ (buildHourlySignals_ 36000000 118800000).getLast? = some (addHours_ 118800000 (-1)) :=
  ⟨by decide, (C6_planner_guaranteed_last 36000000 118800000 (by decide)).2⟩

/-- C2 fails on the code: in the spec scenario (`windowStart` at 10:00 epoch
day 0, `deadline` at 09:00 day 1, ms since epoch of a fixed-offset clock) the
planner emits 14 signals, not 13 — hour 07:00 of day 1 is outside the quiet
window `[23,7)` and is kept by the loop, and 08:00 is already produced by the
loop (no append happens) — and the packer yields blocks of sizes 5,5,4, not
5,5,3. -/
theorem C2_scenario_counterexample :
    (buildHourlySignals_ 36000000 118800000).length = 14
      ∧ decide ((buildHourlySignals_ 36000000 118800000).length = 13) = false
      ∧ ((buildHourlyBlocks_ (buildHourlySignals_ 36000000 118800000)).map
            fun b => b.reminders.length) = [5, 5, 4]
      ∧ decide (((buildHourlyBlocks_ (buildHourlySignals_ 36000000 118800000)).map
            fun b => b.reminders.length) = [5, 5, 3]) = false := by
  refine ⟨by decide, by decide, by decide, by decide⟩

/-- C2 amended: the scenario yields the hourly signals 11:00–22:00 of day 0
plus 07:00 and 08:00 of day 1 (14 signals, the 08:00 one produced by the loop
itself), packed into blocks of sizes 5, 5, 4. -/
theorem C2_scenario_amended :
    buildHourlySignals_ 36000000 118800000 =
      [39600000, 43200000, 46800000, 50400000, 54000000, 57600000, 61200000,
        64800000, 68400000, 72000000, 75600000, 79200000, 111600000, 115200000]
      ∧ buildHourlyBlocks_ (buildHourlySignals_ 36000000 118800000) =
        [{ start := 54000000, reminders := [240, 180, 120, 60, 0] },
         { start := 72000000, reminders := [240, 180, 120, 60, 0] },
         { start := 115200000, reminders := [660, 600, 60, 0] }] := by
  refine ⟨by decide, by decide⟩

/-! ## Lemmas about the Block Packer -/

lemma jsRound_exact (k : Int) : jsRoundDiv (60000 * k) 60000 = k := by
  unfold jsRoundDiv; omega

lemma getLastD_mem_of_ne_nil (c : List Int) (hne : c ≠ []) : c.getLastD 0 ∈ c := by
  obtain ⟨y, hy⟩ := Option.isSome_iff_exists.mp (List.getLast?_isSome.mpr hne)
  rw [List.getLastD_eq_getLast?, hy]
  exact List.mem_of_mem_getLast? hy

/-- On a minute-aligned slice, `start − round(start−s)` reconstructs each
signal exactly. -/
lemma map_implied_blockOfSlice (c : List Int) (hne : c ≠ [])
    (hd : ∀ s ∈ c, (60000:Int) ∣ s) :
    ((blockOfSlice c).reminders.map fun m => addMinutes_ (blockOfSlice c).start (-m)) = c := by
  have hmem : c.getLastD 0 ∈ c := getLastD_mem_of_ne_nil c hne
  simp only [blockOfSlice, List.map_map]
  conv_rhs => rw [← List.map_id c]
  refine List.map_congr_left fun a ha => ?_
  obtain ⟨k, hk⟩ := dvd_sub (hd _ hmem) (hd a ha)
  simp only [Function.comp_apply, hk, jsRound_exact, addMinutes_, id_eq]
  omega

lemma blockOfSlice_reminders_props (c : List Int) (hne : c ≠ [])
    (hp : c.Pairwise (· < ·)) :
    (blockOfSlice c).reminders.Pairwise (fun x y => y ≤ x)
      ∧ (blockOfSlice c).reminders.getLast? = some 0
      ∧ (blockOfSlice c).reminders.length = c.length := by
  obtain ⟨y, hy⟩ := Option.isSome_iff_exists.mp (List.getLast?_isSome.mpr hne)
  refine ⟨?_, ?_, by simp [blockOfSlice]⟩
  · refine List.Pairwise.map _ (fun a b hab => ?_) hp
    simp only [jsRoundDiv]
    omega
  · have hz : jsRoundDiv (y - y) 60000 = 0 := by unfold jsRoundDiv; omega
    simp only [blockOfSlice, List.getLast?_map, hy, List.getLastD_eq_getLast?,
      Option.getD_some, Option.map_some', hz]

lemma impliedSignals_cons (b : Block) (bs : List Block) :
    impliedSignals (b :: bs) =
      (b.reminders.map fun m => addMinutes_ b.start (-m)) ++ impliedSignals bs := by
  simp [impliedSignals]

lemma implied_blocksLoop : ∀ (fuel : Nat) (sig : List Int), sig.length ≤ fuel →
    (∀ s ∈ sig, (60000:Int) ∣ s) →
    impliedSignals (buildHourlyBlocksLoop fuel sig) = sig := by
  intro fuel
  induction fuel with
  | zero =>
    intro sig hlen _
    rw [List.length_eq_zero.mp (Nat.le_zero.mp hlen)]
    rfl
  | succ n ih =>
    intro sig hlen hd
    cases sig with
    | nil => rfl
    | cons s rest =>
      simp only [buildHourlyBlocksLoop, impliedSignals_cons]
      rw [map_implied_blockOfSlice _ (by simp [CONFIG.HOURLY_BLOCK_MAX_SIGNALS])
            (fun x hx => hd x (List.take_subset _ _ hx)),
          ih _ (by simp only [List.length_drop, List.length_cons,
              CONFIG.HOURLY_BLOCK_MAX_SIGNALS] at hlen ⊢; omega)
            (fun x hx => hd x (List.drop_subset _ _ hx))]
      exact List.take_append_drop _ _

lemma blocksLoop_mem_props : ∀ (fuel : Nat) (sig : List Int), sig.Pairwise (· < ·) →
    ∀ b ∈ buildHourlyBlocksLoop fuel sig,
      b.reminders.Pairwise (fun x y => y ≤ x) ∧ b.reminders.getLast? = some 0
        ∧ b.reminders.length ≤ CONFIG.HOURLY_BLOCK_MAX_SIGNALS := by
  intro fuel
  induction fuel with
  | zero => intro sig _ b hb; simp [buildHourlyBlocksLoop] at hb
  | succ n ih =>
    intro sig hp b hb
    cases sig with
    | nil => simp [buildHourlyBlocksLoop] at hb
    | cons s rest =>
      simp only [buildHourlyBlocksLoop, List.mem_cons] at hb
      rcases hb with rfl | hb2
      · have hprops := blockOfSlice_reminders_props
          ((s :: rest).take CONFIG.HOURLY_BLOCK_MAX_SIGNALS)
          (by simp [CONFIG.HOURLY_BLOCK_MAX_SIGNALS])
          (List.Pairwise.sublist (List.take_sublist _ _) hp)
        refine ⟨hprops.1, hprops.2.1, ?_⟩
        rw [hprops.2.2]
        exact List.length_take_le _ _
      · exact ih _ (List.Pairwise.sublist (List.drop_sublist _ _) hp) _ hb2

/-! ## Claim C4: Block Packer round-trip -/

/-- C4 fails on the code as universally stated: the planner may emit a
sub-minute-aligned final signal (here `deadline = 20:00:30`, so `endSignal =
19:00:30` is appended), whose block rounds its lead times to whole minutes —
concatenating `start − leadMinutes` then misses the original instants by 30
seconds, so the round-trip is not exact. -/
theorem C4_roundtrip_counterexample :
    (impliedSignals (buildHourlyBlocks_ (buildHourlySignals_ 36000000 72030000))
        == buildHourlySignals_ 36000000 72030000) = false
      ∧ (impliedSignals (buildHourlyBlocks_ (buildHourlySignals_ 36000000 72030000))).get? 5
          = some 57570000
      ∧ (buildHourlySignals_ 36000000 72030000).get? 5 = some 57600000 :=
  ⟨by decide, by decide, by decide⟩

/-- C4 amended: whenever the deadline (hence every signal) is minute-aligned,
concatenating each block `start − leadMinutes` list reconstructs the planner
sequence exactly; and unconditionally every block has `leadMinutes`
non-increasing with last entry 0, and no block exceeds
`HOURLY_BLOCK_MAX_SIGNALS` entries. -/
theorem C4_packer_roundtrip (longStart expiresAt : Int) :
    ((60000:Int) ∣ expiresAt →
        impliedSignals (buildHourlyBlocks_ (buildHourlySignals_ longStart expiresAt))
          = buildHourlySignals_ longStart expiresAt)
      ∧ ∀ b ∈ buildHourlyBlocks_ (buildHourlySignals_ longStart expiresAt),
          b.reminders.Pairwise (fun x y => y ≤ x) ∧ b.reminders.getLast? = some 0
            ∧ b.reminders.length ≤ CONFIG.HOURLY_BLOCK_MAX_SIGNALS := by
  constructor
  · intro hdvd
    exact implied_blocksLoop _ _ (le_refl _)
      (fun s hs => dvd_buildHourlySignals longStart expiresAt s hdvd hs)
  · exact blocksLoop_mem_props _ _ (pairwise_buildHourlySignals longStart expiresAt)

/-- Witness for C4 at the minute-aligned scenario deadline, including a
concrete block of the output. -/
theorem C4_packer_roundtrip_witness :
    (60000:Int) ∣ 118800000
      ∧ impliedSignals (buildHourlyBlocks_ (buildHourlySignals_ 36000000 118800000))
          = buildHourlySignals_ 36000000 118800000
      ∧ (Block.mk 54000000 [240, 180, 120, 60, 0]).reminders.getLast? = some 0 :=
  ⟨by decide, (C4_packer_roundtrip 36000000 118800000).1 (by decide),
   ((C4_packer_roundtrip 36000000 118800000).2
      (Block.mk 54000000 [240, 180, 120, 60, 0]) (by decide)).2.1⟩

/-! ## Lemmas about marker search in descriptions -/

lemma listHasInfix_refl (l : List Char) : listHasInfix l l = true := by
  cases l with
  | nil => rfl
  | cons c rest =>
    simp only [listHasInfix]
    rw [ List.isPrefixOf_iff_prefix.mpr (List.prefix_refl _)]
    simp

lemma listHasInfix_suffix : ∀ (pre l : List Char), listHasInfix l (pre ++ l) = true := by
  intro pre
  induction pre with
  | nil => intro l; simpa using listHasInfix_refl l
  | cons c pre ih =>
    intro l
    simp only [List.cons_append, listHasInfix, List.append_eq]
    rw [ih l]
    simp

/-- A string contains its own suffix (`indexOf` search succeeds). -/
lemma strContains_append (p m : String) : strContains (p ++ m) m = true := by
  simp only [strContains, String.data_append]
  exact listHasInfix_suffix _ _

lemma linesJoin_append_single : ∀ (ls : List String) (m : String),
    ∃ p : String, linesJoin (ls ++ [m]) = p ++ m := by
  intro ls
  induction ls with
  | nil => intro m; exact ⟨"", by simp [linesJoin]⟩
  | cons l ls ih =>
    intro m
    cases ls with
    | nil => exact ⟨l ++ "\n", by simp [linesJoin, String.append_assoc]⟩
    | cons l2 ls2 =>
      obtain ⟨p, hp⟩ := ih m
      exact ⟨l ++ "\n" ++ p, by
        simp only [List.cons_append, linesJoin, List.append_eq] at hp ⊢
        rw [hp]
        simp [String.append_assoc]⟩

lemma strContains_linesJoin_last (ls : List String) (m : String) :
    strContains (linesJoin (ls ++ [m])) m = true := by
  obtain ⟨p, hp⟩ := linesJoin_append_single ls m
  rw [hp]
  exact strContains_append p m

/-- Every built description contains its own marker line, so the marker search
always finds the event that was created with this description. -/
lemma buildDescription_contains_marker (alertId kind subject gmailLink messageLink : String)
    (receivedAt expiresAt eventStart : Option Int) :
    strContains
      (buildDescriptionNew_ alertId kind subject gmailLink messageLink
        receivedAt expiresAt eventStart)
      ("MAILALERT_ID: " ++ alertId) = true := by
  simp only [buildDescriptionNew_]
  exact strContains_linesJoin_last _ _

/-! ## Claim C1: block-event materialization is NOT search-guarded -/


/-- C1 fails on the code: even though an event carrying the marker
`chainId|B0|<formatted start>` is already present (and findable in a window
around the block start), `createHourlyBlockEvent_` performs no search and
creates a second event with the same marker — creation is not a no-op. -/
theorem C1_blockevent_counterexample :
    (findEventById_ c1World.cal 0 86400000 c1BlockId false).isSome = true
      ∧ ((createHourlyBlockEvent_ c1Ctx c1ChainId 0 c1Block c1World).2.cal.countP fun ev =>
          strContains ev.desc ("MAILALERT_ID: " ++ c1BlockId)) = 2 :=
  ⟨by decide, by decide⟩

/-- C1 amended: `createHourlyBlockEvent_` returns the marker id
`chainId|B<index>|<YYYYMMDDHHMM of start>` and unconditionally appends one new
event carrying that marker, whatever the calendar already contains — the
marker search (`findEventById_`) guards only the LONG event creation in
`createTwoEventsForMail_`, and chain-level idempotence rests solely on the
persisted Chain State check in `startHourlyChainForMail_`. -/
theorem C1_blockevent_unconditional_create (ctx : ChainCtx) (chainId : String)
    (index : Nat) (block : Block) (w : World) :
    (createHourlyBlockEvent_ ctx chainId index block w).1
        = chainId ++ "|B" ++ toString index ++ "|" ++ formatYYYYMMDDHHMM_ block.start
      ∧ ((createHourlyBlockEvent_ ctx chainId index block w).2.cal.countP fun ev =>
            strContains ev.desc ("MAILALERT_ID: "
              ++ (chainId ++ "|B" ++ toString index ++ "|" ++ formatYYYYMMDDHHMM_ block.start)))
        = (w.cal.countP fun ev =>
            strContains ev.desc ("MAILALERT_ID: "
              ++ (chainId ++ "|B" ++ toString index ++ "|" ++ formatYYYYMMDDHHMM_ block.start))) + 1 := by
  constructor
  · rfl
  · simp only [createHourlyBlockEvent_, calCreateEvent, List.countP_append,
      List.countP_cons, List.countP_nil]
    rw [buildDescription_contains_marker]
    simp

/-! ## Claim C3: the delete-on-final-failure branch is unreachable -/

/-- C3: the only terminal-creation-failure signal the code tests is a falsy return
from `createFinalEvent_`, but `createFinalEvent_` always returns the non-empty
marker id `chainId|FINAL|<stamp>` (a real failure of the calendar call throws
and aborts the whole tick, which `processHourlyChains_` does not catch). So
the `deleteHourlyChainState_` branch guarded by that falsy check can never
run, and a failed terminal creation leaves the Chain State in place instead of
deleting it. -/
theorem C3_final_failure_branch_dead (st : ChainState) (w : World) :
    0 < ((createFinalEvent_ st w).1).length := by
  simp only [createFinalEvent_]
  rw [String.append_assoc, String.length_append]
  have h7 : ("|FINAL|" ++ formatYYYYMMDDHHMM_ st.expiresAt).length
      = 7 + (formatYYYYMMDDHHMM_ st.expiresAt).length := String.length_append _ _
  omega

/-! ## Lemmas about persistence and the driver -/

lemma chainKey_startsWith (cid : String) :
    strStartsWith (chainKey cid) "MAILALERT_HCHAIN:" = true := by
  simp only [strStartsWith, chainKey, String.data_append]
  exact List.isPrefixOf_iff_prefix.mpr (List.prefix_append _ _)

/-- A world holding exactly one chain record lists exactly that chain. -/
lemma listHourlyChainStates_single (cal : List CalEvent) (nk : Nat) (trg : List String)
    (st : ChainState) :
    listHourlyChainStates_
        { cal := cal, nextKey := nk,
          props := [(chainKey st.chainId, StoredVal.valid st)], triggers := trg }
      = [st] := by
  simp [listHourlyChainStates_, chainKey_startsWith, parseStored]

lemma propGet_append_of_ne (p1 rest : List (String × StoredVal)) (k : String)
    (h : ∀ q ∈ p1, q.1 ≠ k) : propGet (p1 ++ rest) k = propGet rest k := by
  induction p1 with
  | nil => rfl
  | cons q p1 ih =>
    have hq : ¬((q.1 == k) = true) := by
      simp only [beq_iff_eq]
      exact h q (List.mem_cons_self _ _)
    simp only [List.cons_append, propGet]
    rw [if_neg hq]
    exact ih (fun x hx => h x (List.mem_cons_of_mem _ hx))

/-! ## Claim C7: starting a chain is idempotent per fingerprint -/

/-- C7: once a Chain State is persisted under the chain key derived from the
fingerprint and the LONG event is findable by its marker id, re-running the
whole mail entry point changes nothing: no LONG event, no block-event, no
chain record is created. -/
theorem C7_startChain_idempotent (mail : Mail) (now : Int) (w : World)
    (hlong : (findEventById_ w.cal (addMinutes_ (mailLongStart now) (-60))
        (addMinutes_ (mailExpiresAt mail) 60) (mailLongId mail now) false).isSome = true)
    (hchain : (getHourlyChainState_ (mailBaseId mail now ++ "|HCHAIN") w).isSome = true) :
    createTwoEventsForMail_ mail now w = w := by
  obtain ⟨e, he⟩ := Option.isSome_iff_exists.mp hlong
  simp only [mailLongId] at he
  simp only [createTwoEventsForMail_, he]
  simp only [startHourlyChainForMail_, hchain, if_true]


/-- Witness for C7: on the concrete pre-populated world the second run is a
no-op. -/
theorem C7_startChain_idempotent_witness :
    (findEventById_ c7World.cal (addMinutes_ (mailLongStart 0) (-60))
        (addMinutes_ (mailExpiresAt c7Mail) 60) (mailLongId c7Mail 0) false).isSome = true
      ∧ (getHourlyChainState_ (mailBaseId c7Mail 0 ++ "|HCHAIN") c7World).isSome = true
      ∧ createTwoEventsForMail_ c7Mail 0 c7World = c7World :=
  ⟨by decide, by decide, C7_startChain_idempotent c7Mail 0 c7World (by decide) (by decide)⟩

/-! ## Claim C8: a not-yet-due tick is a no-op for the chain -/


/-- C8 fails as stated: here `pendingDeleteEventId` is empty, the event named
by `currentEventId` exists in the calendar, and `now = 0` is strictly before
the start of the current block — yet the tick is not a no-op: the block starts 49h
in the future, the ±48h existence search misses the event, and the Chain
State is deleted. -/
theorem C8_noop_tick_counterexample :
    c8St.pendingDeleteEventId = ""
      ∧ (c8World.cal.countP fun ev =>
          strContains ev.desc ("MAILALERT_ID: " ++ c8St.currentEventId)) = 1
      ∧ (0:Int) < (c8St.blocks.getD c8St.indexCurrent { start := 0, reminders := [] }).start
      ∧ (processHourlyChains_ 0 c8World == c8World) = false
      ∧ getHourlyChainState_ c8St.chainId (processHourlyChains_ 0 c8World) = none :=
  ⟨by decide, by decide, by decide, by decide, by decide⟩

/-- C8 amended: on a tick where the chain is `active`, `pendingDeleteEventId`
is empty, the event named by `currentEventId` is found by the search
in `[now − 48h, now + 48h]`, and `now` is strictly before
`blocks[currentIndex].start`, the tick leaves the world unchanged: the
persisted record is field-for-field identical and no event is created or
deleted. -/
theorem C8_noop_tick (now : Int) (cal : List CalEvent) (nk : Nat) (trg : List String)
    (st : ChainState)
    (hpend : st.pendingDeleteEventId = "")
    (hstat : st.status = "active")
    (hcur : st.currentEventId ≠ "")
    (hfind : (findEventById_ cal (addHours_ now (-48)) (addHours_ now 48)
        st.currentEventId false).isSome = true)
    (hidx : st.indexCurrent < st.blocks.length)
    (hnow : now < (st.blocks.getD st.indexCurrent { start := 0, reminders := [] }).start) :
    processHourlyChains_ now
        { cal := cal, nextKey := nk,
          props := [(chainKey st.chainId, StoredVal.valid st)], triggers := trg }
      = { cal := cal, nextKey := nk,
          props := [(chainKey st.chainId, StoredVal.valid st)], triggers := trg } := by
  obtain ⟨e, he⟩ := Option.isSome_iff_exists.mp hfind
  have hlist := listHourlyChainStates_single cal nk trg st
  simp only [processHourlyChains_, hlist, List.isEmpty_cons, Bool.false_eq_true,
    if_false, List.foldl_cons, List.foldl_nil]
  rw [show cleanupHourlyChainTrigger_ = cleanupHourlyChainTrigger_ from rfl]
  simp only [processOneChain, hpend, ne_eq, not_true_eq_false, if_false,
    not_false_eq_true, if_true, hstat, he]
  simp only [saveHourlyChainState_, propSet, beq_self_eq_true, if_true, if_pos hnow]
  simp only [cleanupHourlyChainTrigger_]
  simp [hcur, hlist]


/-- Witness for the amended C8: with the block one hour ahead and its event in
the search window, the tick at `now = 0` changes nothing. -/
theorem C8_noop_tick_witness :
    (findEventById_ c8bCal (addHours_ 0 (-48)) (addHours_ 0 48)
        c8bSt.currentEventId false).isSome = true
      ∧ processHourlyChains_ 0
          { cal := c8bCal, nextKey := 1,
            props := [(chainKey c8bSt.chainId, StoredVal.valid c8bSt)],
            triggers := ["processHourlyChains_"] }
        = { cal := c8bCal, nextKey := 1,
            props := [(chainKey c8bSt.chainId, StoredVal.valid c8bSt)],
            triggers := ["processHourlyChains_"] } :=
  ⟨by decide,
   C8_noop_tick 0 c8bCal 1 ["processHourlyChains_"] c8bSt (by decide) (by decide)
     (by decide) (by decide) (by decide) (by decide)⟩

/-! ## Claim C10: the ±48h window turns a far-future event into a cancel -/

/-- C10: the driver checks the existence of the current block-event only inside
`[now − 48h, now + 48h]`; if every event carrying the current marker of the chain
lies beyond `now + 48h` (and one such event does exist in the calendar), the
tick treats the chain as cancelled and deletes its Chain State. -/
theorem C10_outside_window_cancels (now : Int) (cal : List CalEvent) (nk : Nat)
    (trg : List String) (st : ChainState)
    (hpend : st.pendingDeleteEventId = "")
    (hstat : st.status = "active")
    (hcur : st.currentEventId ≠ "")
    (hex : ∃ ev ∈ cal, strContains ev.desc ("MAILALERT_ID: " ++ st.currentEventId) = true
        ∧ addHours_ now 48 < ev.start)
    (hall : ∀ ev ∈ cal, strContains ev.desc ("MAILALERT_ID: " ++ st.currentEventId) = true →
        addHours_ now 48 < ev.start) :
    getHourlyChainState_ st.chainId
        (processHourlyChains_ now
          { cal := cal, nextKey := nk,
            props := [(chainKey st.chainId, StoredVal.valid st)], triggers := trg })
      = none := by
  have hfind : findEventById_ cal (addHours_ now (-48)) (addHours_ now 48)
      st.currentEventId false = none := by
    unfold findEventById_
    rw [List.find?_eq_none]
    intro ev hev hpred
    simp only [Bool.and_eq_true, evOverlaps, decide_eq_true_eq] at hpred
    have := hall ev hev hpred.2
    have h1 := hpred.1.1.1
    omega
  have hlist := listHourlyChainStates_single cal nk trg st
  simp only [processHourlyChains_, hlist, List.isEmpty_cons, Bool.false_eq_true,
    if_false, List.foldl_cons, List.foldl_nil]
  simp only [processOneChain, hpend, ne_eq, not_true_eq_false, if_false,
    not_false_eq_true, if_true, hstat, hfind]
  simp only [deleteHourlyChainState_, propDelete, beq_self_eq_true, if_true]
  simp [hcur, getHourlyChainState_, cleanupHourlyChainTrigger_, listHourlyChainStates_,
    propGet]


/-- Witness for C10: the current block-event exists 49h ahead, the tick at
`now = 0` deletes the chain record. -/
theorem C10_outside_window_cancels_witness :
    (∃ ev ∈ c10Cal, strContains ev.desc ("MAILALERT_ID: " ++ c10St.currentEventId) = true
        ∧ addHours_ 0 48 < ev.start)
      ∧ getHourlyChainState_ c10St.chainId
          (processHourlyChains_ 0
            { cal := c10Cal, nextKey := 1,
              props := [(chainKey c10St.chainId, StoredVal.valid c10St)],
              triggers := ["processHourlyChains_"] })
        = none :=
  ⟨by decide,
   C10_outside_window_cancels 0 c10Cal 1 ["processHourlyChains_"] c10St (by decide)
     (by decide) (by decide) (by decide) (by decide)⟩

/-! ## Claim C9: a malformed persisted record is treated as an absent chain -/

/-- C9: a chain record whose stored value does not parse is invisible: looking
the chain up returns absent, and the list of chains a tick iterates over is
exactly the list obtained with the malformed record removed — the remaining
well-formed chains are still processed and nothing aborts (the modelled tick is
a total function over the listed chains). -/
theorem C9_malformed_state_ignored (cal : List CalEvent) (nk : Nat) (trg : List String)
    (p1 p2 : List (String × StoredVal)) (cid raw : String)
    (hp1 : ∀ q ∈ p1, q.1 ≠ chainKey cid) :
    getHourlyChainState_ cid
        { cal := cal, nextKey := nk,
          props := p1 ++ [(chainKey cid, StoredVal.malformed raw)] ++ p2, triggers := trg }
      = none
      ∧ listHourlyChainStates_
          { cal := cal, nextKey := nk,
            props := p1 ++ [(chainKey cid, StoredVal.malformed raw)] ++ p2, triggers := trg }
        = listHourlyChainStates_
            { cal := cal, nextKey := nk, props := p1 ++ p2, triggers := trg } := by
  constructor
  · simp only [getHourlyChainState_]
    rw [List.append_assoc, propGet_append_of_ne _ _ _ hp1]
    simp [propGet, parseStored]
  · simp only [listHourlyChainStates_]
    rw [List.append_assoc, List.filterMap_append, List.filterMap_append,
      List.filterMap_append]
    simp [chainKey_startsWith, parseStored]

/-- Witness for C9: one well-formed record next to one malformed record — the
malformed one is invisible, the well-formed one is still listed. -/
theorem C9_malformed_state_ignored_witness :
    getHourlyChainState_ ("bad")
        { cal := [], nextKey := 0,
          props := [(chainKey ("other"), StoredVal.valid c9Dummy),
            (chainKey ("bad"), StoredVal.malformed ("not a json value"))],
          triggers := [] }
      = none
      ∧ listHourlyChainStates_
          { cal := [], nextKey := 0,
            props := [(chainKey ("other"), StoredVal.valid c9Dummy),
              (chainKey ("bad"), StoredVal.malformed ("not a json value"))],
            triggers := [] }
        = listHourlyChainStates_
            { cal := [], nextKey := 0,
              props := [(chainKey ("other"), StoredVal.valid c9Dummy)], triggers := [] } := by
  have h := C9_malformed_state_ignored [] 0 []
    [(chainKey ("other"), StoredVal.valid c9Dummy)] [] ("bad") ("not a json value")
    (by decide)
  simpa using h

end MailCal
